import Mathlib

/-!
Verification development for the RSM minting engine
(`src/rsm_minting_engine.py`).

The engine reads rows of the `human_genome` table, computes four metric
scores per row, aggregates them into a token total, clamps the total at a
global supply ceiling, splits it 6:1 into market and founder allocations,
and persists the result with an idempotency flag.  We embed the record
store as a list of `Genome` values kept in the same role as the table;
SQL queries become list operations (`ORDER BY id` is an insertion sort by
identifier).  Python float arithmetic is embedded as exact real
arithmetic, except for the distribution check, where IEEE 754 double
rounding is modeled explicitly over the rationals (`rnd` below) because
the check is sensitive to rounding.  The unused `hashlib.sha256` call inside
`calculate_uniqueness` has no effect on the returned value and is
omitted.  Timestamps (`rsm_minted_at`) play no role in any claim and are
omitted from the record model.
-/

namespace RSM

/-- One row of the `human_genome` table, restricted to the columns the
minting engine reads or writes. -/
structure Genome where
  id : Nat
  dna_tetrad : List Char
  consciousness : Int
  blockchain : List Char
  block_height : Int
  rsm_minted : Bool
  rsm_tokens_total : ℝ
  rsm_tokens_market : ℝ
  rsm_tokens_founder : ℝ
  rsm_complexity_score : ℝ
  rsm_uniqueness_score : ℝ
  rsm_entropy_score : ℝ
  rsm_blockchain_score : ℝ
  rsm_calibration_k : ℝ

/-- `MAX_SUPPLY = 100_000_666.0`. -/
def MAX_SUPPLY : ℝ := 100000666
/-- `MIN_MINT_THRESHOLD = 0.001`. -/
def MIN_MINT_THRESHOLD : ℝ := 0.001
/-- `MARKET_RATIO = 6.0 / 7.0`. -/
noncomputable def MARKET_RATIO : ℝ := 6 / 7
/-- `FOUNDER_RATIO = 1.0 / 7.0`. -/
noncomputable def FOUNDER_RATIO : ℝ := 1 / 7

/-- `AGI_WEIGHTS['alpha'] = 0.50` (consciousness weight). -/
def alpha : ℝ := 0.50
/-- `AGI_WEIGHTS['beta'] = 0.25` (uniqueness weight). -/
def beta : ℝ := 0.25
/-- `AGI_WEIGHTS['gamma'] = 0.15` (entropy weight). -/
def gamma : ℝ := 0.15
/-- `AGI_WEIGHTS['delta'] = 0.10` (blockchain weight). -/
def delta : ℝ := 0.10

/-- Python `str.lower()`: strings are embedded as `List Char`
throughout. -/
def strToLower (s : List Char) : List Char := s.map Char.toLower

/-- `BLOCKCHAIN_WEIGHTS.get(key, 0.5)`: the per-chain weight table with
default `0.5` for unknown chains.  Keys are spelled as character lists
(bitcoin, ethereum, solana, polygon, arbitrum, avalanche, optimism,
base, zkevm, bsc). -/
def blockchainWeight (b : List Char) : ℝ :=
  if b = ['b','i','t','c','o','i','n'] then 1.0
  else if b = ['e','t','h','e','r','e','u','m'] then 0.9
  else if b = ['s','o','l','a','n','a'] then 0.85
  else if b = ['p','o','l','y','g','o','n'] then 0.7
  else if b = ['a','r','b','i','t','r','u','m'] then 0.7
  else if b = ['a','v','a','l','a','n','c','h','e'] then 0.7
  else if b = ['o','p','t','i','m','i','s','m'] then 0.7
  else if b = ['b','a','s','e'] then 0.7
  else if b = ['z','k','e','v','m'] then 0.7
  else if b = ['b','s','c'] then 0.6
  else 0.5

/-- `get_current_supply`: `SELECT COALESCE(SUM(rsm_tokens_total),0) FROM
human_genome WHERE rsm_minted = TRUE`. -/
noncomputable def get_current_supply (store : List Genome) : ℝ :=
  ((store.filter (·.rsm_minted)).map (·.rsm_tokens_total)).sum

/-- `get_genome_count`: `SELECT COUNT(*) FROM human_genome`. -/
def get_genome_count (store : List Genome) : Nat := store.length

/-- `calculate_consciousness_complexity`: weighted sum of the normalized
consciousness value, a logarithmic length component, and the GC content,
clamped to `[0,1]`.  The Python guard `if consciousness` maps a zero (or
missing) consciousness to `0.0`, and an empty string yields length
component `0.0` and neutral GC content `0.5`. -/
noncomputable def calculate_consciousness_complexity (g : Genome) : ℝ :=
  max 0 (min 1
    (0.6 * (if g.consciousness = 0 then 0 else (g.consciousness : ℝ) / 81)
     + 0.3 * (if 0 < g.dna_tetrad.length then
         Real.logb 2 (1 + (g.dna_tetrad.length : ℝ)) / Real.logb 2 101 else 0)
     + 0.1 * (if 0 < g.dna_tetrad.length then
         (((g.dna_tetrad.count 'G' + g.dna_tetrad.count 'C' : ℕ)) : ℝ) / (g.dna_tetrad.length : ℝ)
       else 0.5)))

/-- The duplicate query inside `calculate_uniqueness`:
`SELECT COUNT(*) FROM human_genome WHERE dna_tetrad = %s AND id < %s`. -/
def duplicateCount (store : List Genome) (g : Genome) : Nat :=
  (store.filter (fun h => decide (h.dna_tetrad = g.dna_tetrad) && decide (h.id < g.id))).length

/-- `calculate_uniqueness`: `0.0` for an empty string (checked before the
duplicate query), `1.0` when no earlier record holds the same string, and
`1/(1+duplicates)` otherwise. -/
noncomputable def calculate_uniqueness (store : List Genome) (g : Genome) : ℝ :=
  if g.dna_tetrad = [] then 0
  else if duplicateCount store g = 0 then 1
  else 1 / (1 + (duplicateCount store g : ℝ))

/-- One `p * log2 p` summand of the Shannon entropy: the Python loop only
adds the term when the count is positive. -/
noncomputable def entropyTerm (c total : Nat) : ℝ :=
  if 0 < c then -(((c : ℝ) / (total : ℝ)) * Real.logb 2 ((c : ℝ) / (total : ℝ))) else 0

/-- `sum(counts.values())` for the four nucleotides. -/
def nucleotideTotal (dna : List Char) : Nat :=
  dna.count 'A' + dna.count 'T' + dna.count 'G' + dna.count 'C'

/-- The un-normalized Shannon entropy accumulated by `calculate_entropy`
(before the division by 2). -/
noncomputable def shannonEntropy (dna : List Char) : ℝ :=
  entropyTerm (dna.count 'A') (nucleotideTotal dna)
  + entropyTerm (dna.count 'T') (nucleotideTotal dna)
  + entropyTerm (dna.count 'G') (nucleotideTotal dna)
  + entropyTerm (dna.count 'C') (nucleotideTotal dna)

/-- `calculate_entropy`: `0.0` for an empty string or when no nucleotide
occurs, otherwise the Shannon entropy over `{A,T,G,C}` divided by 2. -/
noncomputable def calculate_entropy (g : Genome) : ℝ :=
  if g.dna_tetrad = [] then 0
  else if nucleotideTotal g.dna_tetrad = 0 then 0
  else shannonEntropy g.dna_tetrad / 2

/-- `calculate_blockchain_metric`: `0.7 * chain weight + 0.3 * height
component`, clamped to `[0,1]`.  The Python guard
`if block_height and block_height > 0` yields `0.0` for a zero, missing
or negative height. -/
noncomputable def calculate_blockchain_metric (g : Genome) : ℝ :=
  max 0 (min 1
    (0.7 * blockchainWeight (strToLower g.blockchain)
     + 0.3 * (if 0 < g.block_height then
         min (Real.logb 2 (g.block_height : ℝ) / 32) 1 else 0)))

/-- The pre-`K` weighted score `α*C + β*U + γ*H + δ*B` computed inside
both `calculate_token_amount` and `calibrate_K`. -/
noncomputable def raw_score (store : List Genome) (g : Genome) : ℝ :=
  alpha * calculate_consciousness_complexity g
  + beta * calculate_uniqueness store g
  + gamma * calculate_entropy g
  + delta * calculate_blockchain_metric g

/-- `calculate_token_amount`: `total_tokens = K * raw_score`. -/
noncomputable def calculate_token_amount (K : ℝ) (store : List Genome) (g : Genome) : ℝ :=
  K * raw_score store g

/-- The max-supply clamp in `mint_tokens`:
`if current_supply + total_tokens > MAX_SUPPLY: total_tokens = MAX_SUPPLY
- current_supply`.  The code always instantiates `ceiling` with
`MAX_SUPPLY`. -/
noncomputable def clampToCeiling (ceiling current total : ℝ) : ℝ :=
  if ceiling < current + total then ceiling - current else total

/-- The token total `mint_tokens` persists: the computed amount clamped at
the supply ceiling. -/
noncomputable def minted_total (K : ℝ) (store : List Genome) (g : Genome) : ℝ :=
  clampToCeiling MAX_SUPPLY (get_current_supply store) (calculate_token_amount K store g)

/-- The 6:1 distribution: `(total * MARKET_RATIO, total * FOUNDER_RATIO)`. -/
noncomputable def splitAllocations (total : ℝ) : ℝ × ℝ :=
  (total * MARKET_RATIO, total * FOUNDER_RATIO)

/-- The values `mint_tokens` returns and writes back for one genome. -/
structure MintResult where
  genome_id : Nat
  total : ℝ
  market : ℝ
  founder : ℝ
  s_complexity : ℝ
  s_uniqueness : ℝ
  s_entropy : ℝ
  s_blockchain : ℝ
  k : ℝ

/-- The result record assembled by a successful `mint_tokens` run. -/
noncomputable def mintResult (K : ℝ) (store : List Genome) (g : Genome) : MintResult :=
  { genome_id := g.id
    total := minted_total K store g
    market := (splitAllocations (minted_total K store g)).1
    founder := (splitAllocations (minted_total K store g)).2
    s_complexity := calculate_consciousness_complexity g
    s_uniqueness := calculate_uniqueness store g
    s_entropy := calculate_entropy g
    s_blockchain := calculate_blockchain_metric g
    k := K }

/-- The field assignments of the `UPDATE human_genome SET ... WHERE id`
statement applied to one matching row. -/
def applyMint (e : Genome) (r : MintResult) : Genome :=
  { e with
    rsm_tokens_total := r.total
    rsm_tokens_market := r.market
    rsm_tokens_founder := r.founder
    rsm_complexity_score := r.s_complexity
    rsm_uniqueness_score := r.s_uniqueness
    rsm_entropy_score := r.s_entropy
    rsm_blockchain_score := r.s_blockchain
    rsm_minted := true
    rsm_calibration_k := r.k }

/-- The `UPDATE ... WHERE id = %s` write: every row whose `id` matches is
rewritten, all others are untouched. -/
def updateStore (store : List Genome) (r : MintResult) : List Genome :=
  store.map fun e => if e.id = r.genome_id then applyMint e r else e

/-- `mint_tokens`: idempotency guard, threshold check, ceiling clamp, 6:1
split, database write.  Returns the result record (`None` on a skip)
paired with the store after the write. -/
noncomputable def mint_tokens (K : ℝ) (store : List Genome) (g : Genome) :
    Option MintResult × List Genome :=
  if g.rsm_minted then (none, store)
  else if calculate_token_amount K store g < MIN_MINT_THRESHOLD then (none, store)
  else (some (mintResult K store g), updateStore store (mintResult K store g))

/-- `SELECT COUNT(*) ... WHERE rsm_minted = TRUE`: how many records are
processed. -/
def processedCount (store : List Genome) : Nat :=
  (store.filter (·.rsm_minted)).length

/-- Insertion step of the `ORDER BY id` sort. -/
def insertById (g : Genome) : List Genome → List Genome
  | [] => [g]
  | h :: t => if g.id ≤ h.id then g :: h :: t else h :: insertById g t

/-- `ORDER BY id`: sort a result set by ascending identifier. -/
def sortById (l : List Genome) : List Genome := l.foldr insertById []

/-- `WHERE rsm_minted = FALSE`: the unprocessed records. -/
def unminted (store : List Genome) : List Genome :=
  store.filter (fun g => !g.rsm_minted)

/-- One page fetched by `mint_all_genomes`:
`SELECT * FROM human_genome WHERE rsm_minted = FALSE ORDER BY id
LIMIT batch OFFSET offset`. -/
def unminted_page (store : List Genome) (batch offset : Nat) : List Genome :=
  ((sortById (unminted store)).drop offset).take batch

/-- The `for genome in genomes` loop body of `mint_all_genomes`: mint each
fetched record against the evolving store.  Returns the store after the
page, the identifiers handed to `mint_tokens` (in order), and the number
of database writes performed. -/
noncomputable def processPage (K : ℝ) (store : List Genome) :
    List Genome → List Genome × List Nat × Nat
  | [] => (store, [], 0)
  | g :: rest =>
    ((processPage K (mint_tokens K store g).2 rest).1,
     g.id :: (processPage K (mint_tokens K store g).2 rest).2.1,
     (if (mint_tokens K store g).1.isSome then 1 else 0)
       + (processPage K (mint_tokens K store g).2 rest).2.2)

theorem applyMint_id (e : Genome) (r : MintResult) : (applyMint e r).id = e.id := rfl

theorem applyMint_minted (e : Genome) (r : MintResult) : (applyMint e r).rsm_minted = true := rfl

theorem updateStore_ids (store : List Genome) (r : MintResult) :
    (updateStore store r).map (·.id) = store.map (·.id) := by
  induction store with
  | nil => rfl
  | cons a s ih =>
    simp only [updateStore, List.map_cons] at ih ⊢
    rw [ih]
    by_cases h : a.id = r.genome_id <;> simp [h, applyMint_id]

theorem mint_tokens_ids (K : ℝ) (store : List Genome) (g : Genome) :
    ((mint_tokens K store g).2).map (·.id) = store.map (·.id) := by
  unfold mint_tokens
  split_ifs <;> simp [updateStore_ids]

theorem processPage_ids (K : ℝ) (page store : List Genome) :
    ((processPage K store page).1).map (·.id) = store.map (·.id) := by
  induction page generalizing store with
  | nil => rfl
  | cons g rest ih =>
    simp only [processPage]
    rw [ih, mint_tokens_ids]

theorem processPage_length (K : ℝ) (store page : List Genome) :
    (processPage K store page).1.length = store.length := by
  have h := processPage_ids K page store
  have h1 : ((processPage K store page).1.map (·.id)).length
      = (store.map (·.id)).length := by rw [h]
  simpa using h1

theorem unminted_page_nonempty (store : List Genome) (batch offset : Nat)
    (h : ¬ (unminted_page store batch offset).isEmpty = true) :
    1 ≤ batch ∧ offset < store.length := by
  rw [List.isEmpty_eq_true] at h
  constructor
  · by_contra hb
    have : batch = 0 := by omega
    simp [unminted_page, this] at h
  · have hd : (sortById (unminted store)).drop offset ≠ [] := by
      intro hnil
      simp [unminted_page, hnil] at h
    rw [ne_eq, List.drop_eq_nil_iff, not_le] at hd
    have hlen : (sortById (unminted store)).length ≤ store.length := by
      have hperm : (sortById (unminted store)).length = (unminted store).length := by
        induction (unminted store) with
        | nil => rfl
        | cons a l ihl =>
          have hins : ∀ (x : Genome) (l2 : List Genome),
              (insertById x l2).length = l2.length + 1 := by
            intro x l2
            induction l2 with
            | nil => rfl
            | cons b t iht => by_cases hx : x.id ≤ b.id <;> simp [insertById, hx, iht]
          simp [sortById] at ihl ⊢
          rw [hins, ihl]
      rw [hperm]
      exact List.length_filter_le _ _
    omega

/-- `mint_all_genomes` from its paging loop onwards, starting at a given
offset: fetch a page, stop on an empty page, process the page, advance
the offset by the batch size, stop once the re-read supply has reached
`MAX_SUPPLY`, otherwise continue with the next page.  Returns the final
store, the identifiers handed to `mint_tokens`, and the number of
database writes. -/
noncomputable def mintLoop (K : ℝ) (batch : Nat) (store : List Genome) (offset : Nat) :
    List Genome × List Nat × Nat :=
  if h : (unminted_page store batch offset).isEmpty then (store, [], 0)
  else
    if MAX_SUPPLY ≤ get_current_supply (processPage K store (unminted_page store batch offset)).1
    then processPage K store (unminted_page store batch offset)
    else
      ((mintLoop K batch (processPage K store (unminted_page store batch offset)).1
          (offset + batch)).1,
       (processPage K store (unminted_page store batch offset)).2.1
         ++ (mintLoop K batch (processPage K store (unminted_page store batch offset)).1
              (offset + batch)).2.1,
       (processPage K store (unminted_page store batch offset)).2.2
         + (mintLoop K batch (processPage K store (unminted_page store batch offset)).1
              (offset + batch)).2.2)
termination_by store.length - offset
decreasing_by
  all_goals
    rw [processPage_length]
    have hb := unminted_page_nonempty store batch offset h
    omega

/-- `mint_all_genomes(batch_size)`: run the paging loop from offset 0. -/
noncomputable def mint_all_genomes (K : ℝ) (batch_size : Nat) (store : List Genome) :
    List Genome × List Nat × Nat :=
  mintLoop K batch_size store 0

/-- The grand-total raw score estimated by `calibrate_K`: the mean pre-`K`
weighted score over the sample, times the total record count. -/
noncomputable def estimated_total_score (store sample : List Genome) : ℝ :=
  ((sample.map (raw_score store)).sum / (sample.length : ℝ)) * (get_genome_count store : ℝ)

/-- `calibrate_K`: `1.0` when no unprocessed records are sampled,
otherwise `target / estimated_total_score` when the estimate is positive
and `1.0` otherwise.  The code draws the sample randomly
(`ORDER BY RANDOM() LIMIT sample_size`) from the unprocessed records; the
sample is therefore a parameter here. -/
noncomputable def calibrate_K (store sample : List Genome) (target : ℝ) : ℝ :=
  if sample.isEmpty then 1
  else if 0 < estimated_total_score store sample then target / estimated_total_score store sample
  else 1

/-- No two rows of the store share an identifier (`id` is the primary
key of `human_genome`). -/
def NodupIds (store : List Genome) : Prop := (store.map (·.id)).Nodup

theorem applyMint_total (e : Genome) (r : MintResult) :
    (applyMint e r).rsm_tokens_total = r.total := rfl

theorem applyMint_market (e : Genome) (r : MintResult) :
    (applyMint e r).rsm_tokens_market = r.market := rfl

theorem applyMint_founder (e : Genome) (r : MintResult) :
    (applyMint e r).rsm_tokens_founder = r.founder := rfl

theorem mintResult_genome_id (K : ℝ) (store : List Genome) (g : Genome) :
    (mintResult K store g).genome_id = g.id := rfl

theorem mintResult_total (K : ℝ) (store : List Genome) (g : Genome) :
    (mintResult K store g).total = minted_total K store g := rfl

theorem mintResult_market (K : ℝ) (store : List Genome) (g : Genome) :
    (mintResult K store g).market = minted_total K store g * MARKET_RATIO := rfl

theorem mintResult_founder (K : ℝ) (store : List Genome) (g : Genome) :
    (mintResult K store g).founder = minted_total K store g * FOUNDER_RATIO := rfl

theorem updateStore_cons (a : Genome) (s : List Genome) (r : MintResult) :
    updateStore (a :: s) r
      = (if a.id = r.genome_id then applyMint a r else a) :: updateStore s r := rfl

theorem supply_nil : get_current_supply [] = 0 := rfl

theorem supply_cons (a : Genome) (s : List Genome) :
    get_current_supply (a :: s)
      = (if a.rsm_minted then a.rsm_tokens_total else 0) + get_current_supply s := by
  by_cases h : a.rsm_minted <;> simp [get_current_supply, List.filter_cons, h]

theorem processedCount_cons (a : Genome) (s : List Genome) :
    processedCount (a :: s) = (if a.rsm_minted then 1 else 0) + processedCount s := by
  by_cases h : a.rsm_minted <;> simp [processedCount, List.filter_cons, h, Nat.add_comm]

theorem updateStore_eq_self (store : List Genome) (r : MintResult)
    (h : ∀ e ∈ store, e.id ≠ r.genome_id) : updateStore store r = store := by
  induction store with
  | nil => rfl
  | cons a s ih =>
    rw [updateStore_cons, if_neg (h a (by simp)),
      ih (fun e he => h e (List.mem_cons_of_mem _ he))]

theorem updateStore_supply (store : List Genome) (r : MintResult) (g : Genome)
    (hnd : NodupIds store) (hg : g ∈ store) (hid : g.id = r.genome_id)
    (hm : g.rsm_minted = false) :
    get_current_supply (updateStore store r) = get_current_supply store + r.total := by
  induction store with
  | nil => cases hg
  | cons a s ih =>
    rw [NodupIds, List.map_cons, List.nodup_cons] at hnd
    rcases List.mem_cons.mp hg with rfl | hgs
    · rw [updateStore_cons, if_pos hid,
        updateStore_eq_self s r (fun e he hEq => hnd.1 (by
          rw [← hid] at hEq
          exact hEq ▸ List.mem_map_of_mem (·.id) he))]
      rw [supply_cons, supply_cons, applyMint_minted, applyMint_total, hm]
      simp only [if_true, if_false, Bool.false_eq_true, ite_true, ite_false]
      ring
    · have hne : a.id ≠ r.genome_id := by
        intro hEq
        apply hnd.1
        rw [hEq, ← hid]
        exact List.mem_map_of_mem (·.id) hgs
      rw [updateStore_cons, if_neg hne, supply_cons, supply_cons, ih hnd.2 hgs]
      ring

theorem updateStore_processedCount (store : List Genome) (r : MintResult) (g : Genome)
    (hnd : NodupIds store) (hg : g ∈ store) (hid : g.id = r.genome_id)
    (hm : g.rsm_minted = false) :
    processedCount (updateStore store r) = processedCount store + 1 := by
  induction store with
  | nil => cases hg
  | cons a s ih =>
    rw [NodupIds, List.map_cons, List.nodup_cons] at hnd
    rcases List.mem_cons.mp hg with rfl | hgs
    · rw [updateStore_cons, if_pos hid,
        updateStore_eq_self s r (fun e he hEq => hnd.1 (by
          rw [← hid] at hEq
          exact hEq ▸ List.mem_map_of_mem (·.id) he))]
      rw [processedCount_cons, processedCount_cons, applyMint_minted, hm]
      simp [Nat.add_comm]
    · have hne : a.id ≠ r.genome_id := by
        intro hEq
        apply hnd.1
        rw [hEq, ← hid]
        exact List.mem_map_of_mem (·.id) hgs
      rw [updateStore_cons, if_neg hne, processedCount_cons, processedCount_cons, ih hnd.2 hgs]
      omega

theorem mem_updateStore_of_ne (store : List Genome) (r : MintResult) {e : Genome}
    (he : e ∈ store) (hne : e.id ≠ r.genome_id) : e ∈ updateStore store r := by
  unfold updateStore
  exact List.mem_map.mpr ⟨e, he, by rw [if_neg hne]⟩

theorem mint_tokens_mem_of_ne (K : ℝ) (store : List Genome) (g : Genome) {e : Genome}
    (he : e ∈ store) (hne : e.id ≠ g.id) : e ∈ (mint_tokens K store g).2 := by
  unfold mint_tokens
  split_ifs
  · exact he
  · exact he
  · exact mem_updateStore_of_ne store _ he (by rw [mintResult_genome_id]; exact hne)

theorem mint_supply_le (K : ℝ) (store : List Genome) (g : Genome)
    (hnd : NodupIds store) (hg : g ∈ store)
    (hs : get_current_supply store ≤ MAX_SUPPLY) :
    get_current_supply (mint_tokens K store g).2 ≤ MAX_SUPPLY := by
  unfold mint_tokens
  split_ifs with h1 h2
  · exact hs
  · exact hs
  · have hm : g.rsm_minted = false := by simpa using h1
    rw [updateStore_supply store _ g hnd hg (mintResult_genome_id K store g).symm hm,
      mintResult_total]
    unfold minted_total clampToCeiling
    split_ifs with h3
    · linarith
    · push_neg at h3
      linarith

theorem processPage_supply (K : ℝ) (page : List Genome) :
    ∀ store : List Genome, NodupIds store → (∀ e ∈ page, e ∈ store) →
    (page.map (·.id)).Nodup → get_current_supply store ≤ MAX_SUPPLY →
    get_current_supply (processPage K store page).1 ≤ MAX_SUPPLY := by
  induction page with
  | nil => intro store _ _ _ hs; exact hs
  | cons g rest ih =>
    intro store hnd hmem hpnd hs
    rw [List.map_cons, List.nodup_cons] at hpnd
    simp only [processPage]
    apply ih
    · unfold NodupIds
      rw [mint_tokens_ids]
      exact hnd
    · intro e he
      have hne : e.id ≠ g.id := by
        intro hEq
        exact hpnd.1 (hEq ▸ List.mem_map_of_mem (·.id) he)
      exact mint_tokens_mem_of_ne K store g (hmem e (List.mem_cons_of_mem _ he)) hne
    · exact hpnd.2
    · exact mint_supply_le K store g hnd (hmem g (by simp)) hs

theorem processPage_trace (K : ℝ) (page : List Genome) :
    ∀ store : List Genome, (processPage K store page).2.1 = page.map (·.id) := by
  induction page with
  | nil => intro store; rfl
  | cons g rest ih =>
    intro store
    simp only [processPage, List.map_cons]
    rw [ih]

theorem insertById_perm (g : Genome) (l : List Genome) : (insertById g l).Perm (g :: l) := by
  induction l with
  | nil => exact List.Perm.refl _
  | cons a t ih =>
    by_cases h : g.id ≤ a.id
    · rw [insertById, if_pos h]
    · rw [insertById, if_neg h]
      exact (ih.cons a).trans (List.Perm.swap g a t)

theorem sortById_perm (l : List Genome) : (sortById l).Perm l := by
  induction l with
  | nil => exact List.Perm.refl _
  | cons a t ih =>
    have h : sortById (a :: t) = insertById a (sortById t) := rfl
    rw [h]
    exact (insertById_perm a (sortById t)).trans (ih.cons a)

theorem unminted_page_subset (store : List Genome) (b o : Nat) :
    ∀ e ∈ unminted_page store b o, e ∈ store := by
  intro e he
  have h1 : e ∈ (sortById (unminted store)).drop o := (List.take_sublist _ _).subset he
  have h2 : e ∈ sortById (unminted store) := (List.drop_sublist _ _).subset h1
  have h3 : e ∈ unminted store := (sortById_perm _).subset h2
  exact List.mem_of_mem_filter h3

theorem unminted_page_unminted (store : List Genome) (b o : Nat) :
    ∀ e ∈ unminted_page store b o, e.rsm_minted = false := by
  intro e he
  have h1 : e ∈ (sortById (unminted store)).drop o := (List.take_sublist _ _).subset he
  have h2 : e ∈ sortById (unminted store) := (List.drop_sublist _ _).subset h1
  have h3 : e ∈ unminted store := (sortById_perm _).subset h2
  have h4 := List.of_mem_filter h3
  simpa using h4

theorem unminted_page_nodup (store : List Genome) (b o : Nat) (hnd : NodupIds store) :
    ((unminted_page store b o).map (·.id)).Nodup := by
  have h1 : List.Sublist (unminted_page store b o) (sortById (unminted store)) :=
    (List.take_sublist _ _).trans (List.drop_sublist _ _)
  have h2 : ((sortById (unminted store)).map (·.id)).Nodup := by
    rw [List.Perm.nodup_iff ((sortById_perm (unminted store)).map (·.id))]
    exact List.Nodup.sublist ((List.filter_sublist store).map (·.id)) hnd
  exact List.Nodup.sublist (h1.map (·.id)) h2

theorem mintLoop_empty (K : ℝ) (b : Nat) (store : List Genome) (o : Nat)
    (h : (unminted_page store b o).isEmpty = true) :
    mintLoop K b store o = (store, [], 0) := by
  rw [mintLoop, dif_pos h]

theorem mintLoop_stop (K : ℝ) (b : Nat) (store : List Genome) (o : Nat)
    (h : ¬ (unminted_page store b o).isEmpty = true)
    (h2 : MAX_SUPPLY ≤ get_current_supply (processPage K store (unminted_page store b o)).1) :
    mintLoop K b store o = processPage K store (unminted_page store b o) := by
  rw [mintLoop, dif_neg h, if_pos h2]

theorem mintLoop_step (K : ℝ) (b : Nat) (store : List Genome) (o : Nat)
    (h : ¬ (unminted_page store b o).isEmpty = true)
    (h2 : ¬ MAX_SUPPLY ≤ get_current_supply (processPage K store (unminted_page store b o)).1) :
    mintLoop K b store o
      = ((mintLoop K b (processPage K store (unminted_page store b o)).1 (o + b)).1,
         (processPage K store (unminted_page store b o)).2.1
           ++ (mintLoop K b (processPage K store (unminted_page store b o)).1 (o + b)).2.1,
         (processPage K store (unminted_page store b o)).2.2
           + (mintLoop K b (processPage K store (unminted_page store b o)).1 (o + b)).2.2) := by
  rw [mintLoop, dif_neg h, if_neg h2]

theorem mintLoop_supply (K : ℝ) (b : Nat) :
    ∀ (n : Nat) (store : List Genome) (o : Nat), store.length - o ≤ n →
    NodupIds store → get_current_supply store ≤ MAX_SUPPLY →
    get_current_supply (mintLoop K b store o).1 ≤ MAX_SUPPLY := by
  intro n
  induction n with
  | zero =>
    intro store o hn hnd hs
    have hempty : (unminted_page store b o).isEmpty = true := by
      by_contra hne
      have := unminted_page_nonempty store b o hne
      omega
    rw [mintLoop_empty K b store o hempty]
    exact hs
  | succ n ih =>
    intro store o hn hnd hs
    by_cases hemp : (unminted_page store b o).isEmpty = true
    · rw [mintLoop_empty K b store o hemp]
      exact hs
    · have hsup2 : get_current_supply (processPage K store (unminted_page store b o)).1
          ≤ MAX_SUPPLY :=
        processPage_supply K (unminted_page store b o) store hnd
          (unminted_page_subset store b o) (unminted_page_nodup store b o hnd) hs
      by_cases hstop :
          MAX_SUPPLY ≤ get_current_supply (processPage K store (unminted_page store b o)).1
      · rw [mintLoop_stop K b store o hemp hstop]
        exact hsup2
      · rw [mintLoop_step K b store o hemp hstop]
        have hnd2 : NodupIds (processPage K store (unminted_page store b o)).1 := by
          unfold NodupIds
          rw [processPage_ids]
          exact hnd
        have hb := unminted_page_nonempty store b o hemp
        exact ih (processPage K store (unminted_page store b o)).1 (o + b)
          (by rw [processPage_length]; omega) hnd2 hsup2

theorem key_ineq (p : ℝ) (hp : 0 < p) : -(p * Real.log p) ≤ 1/4 - p + p * Real.log 4 := by
  have h4p : (0:ℝ) < 4 * p := by linarith
  have hlog := Real.log_le_sub_one_of_pos (inv_pos.mpr h4p)
  rw [Real.log_inv, Real.log_mul (by norm_num : (4:ℝ) ≠ 0) (ne_of_gt hp)] at hlog
  have h2 := mul_le_mul_of_nonneg_left hlog hp.le
  have hp' : p ≠ 0 := ne_of_gt hp
  have h3 : p * ((4*p)⁻¹ - 1) = 1/4 - p := by
    field_simp
    ring
  rw [h3] at h2
  nlinarith [h2]

theorem entropyTerm_nonneg (c total : Nat) (h : c ≤ total) : 0 ≤ entropyTerm c total := by
  unfold entropyTerm
  split_ifs with hc
  · have htot : 0 < total := lt_of_lt_of_le hc h
    have hp0 : (0:ℝ) ≤ (c:ℝ)/(total:ℝ) := by positivity
    have hp1 : (c:ℝ)/(total:ℝ) ≤ 1 := by
      rw [div_le_one (by exact_mod_cast htot)]
      exact_mod_cast h
    have hlogb : Real.logb 2 ((c:ℝ)/(total:ℝ)) ≤ 0 :=
      Real.logb_nonpos (by norm_num) hp0 hp1
    have hmul := mul_le_mul_of_nonneg_left hlogb hp0
    simp only [mul_zero] at hmul
    linarith
  · exact le_refl 0

theorem entropyTerm_mul_log2_le (c total : Nat) (htot : 0 < total) :
    entropyTerm c total * Real.log 2
      ≤ 1/4 - (c:ℝ)/(total:ℝ) + ((c:ℝ)/(total:ℝ)) * Real.log 4 := by
  unfold entropyTerm
  split_ifs with hc
  · have hp : (0:ℝ) < (c:ℝ)/(total:ℝ) :=
      div_pos (by exact_mod_cast hc) (by exact_mod_cast htot)
    have hl2 : Real.log 2 ≠ 0 := ne_of_gt (Real.log_pos (by norm_num))
    have hlb : Real.logb 2 ((c:ℝ)/(total:ℝ)) * Real.log 2 = Real.log ((c:ℝ)/(total:ℝ)) := by
      rw [Real.logb, div_mul_cancel₀ _ hl2]
    calc -(((c:ℝ)/(total:ℝ)) * Real.logb 2 ((c:ℝ)/(total:ℝ))) * Real.log 2
        = -(((c:ℝ)/(total:ℝ)) * (Real.logb 2 ((c:ℝ)/(total:ℝ)) * Real.log 2)) := by ring
      _ = -(((c:ℝ)/(total:ℝ)) * Real.log ((c:ℝ)/(total:ℝ))) := by rw [hlb]
      _ ≤ _ := key_ineq _ hp
  · have hc0 : c = 0 := by omega
    subst hc0
    norm_num

theorem four_term_entropy_le (a t g c : Nat) (h : 0 < a + t + g + c) :
    entropyTerm a (a+t+g+c) + entropyTerm t (a+t+g+c)
      + entropyTerm g (a+t+g+c) + entropyTerm c (a+t+g+c) ≤ 2 := by
  have hl2 : (0:ℝ) < Real.log 2 := Real.log_pos (by norm_num)
  have hlog4 : Real.log 4 = 2 * Real.log 2 := by
    rw [show (4:ℝ) = 2^2 by norm_num, Real.log_pow]
    push_cast
    ring
  have hn0 : ((a+t+g+c : Nat):ℝ) ≠ 0 := Nat.cast_ne_zero.mpr (by omega)
  have hS : ((a:ℝ) + t + g + c) / ((a+t+g+c : Nat):ℝ) = 1 := by
    rw [div_eq_one_iff_eq hn0]
    push_cast
    ring
  have hSL : (a:ℝ)/((a+t+g+c : Nat):ℝ) + (t:ℝ)/((a+t+g+c : Nat):ℝ)
      + (g:ℝ)/((a+t+g+c : Nat):ℝ) + (c:ℝ)/((a+t+g+c : Nat):ℝ) = 1 := by
    rw [div_add_div_same, div_add_div_same, div_add_div_same]
    exact hS
  have b1 := entropyTerm_mul_log2_le a (a+t+g+c) h
  have b2 := entropyTerm_mul_log2_le t (a+t+g+c) h
  have b3 := entropyTerm_mul_log2_le g (a+t+g+c) h
  have b4 := entropyTerm_mul_log2_le c (a+t+g+c) h
  have hL : ((a:ℝ)/((a+t+g+c : Nat):ℝ) + (t:ℝ)/((a+t+g+c : Nat):ℝ)
      + (g:ℝ)/((a+t+g+c : Nat):ℝ) + (c:ℝ)/((a+t+g+c : Nat):ℝ)) * Real.log 4
      = Real.log 4 := by
    rw [hSL]
    ring
  have hmul : (entropyTerm a (a+t+g+c) + entropyTerm t (a+t+g+c)
      + entropyTerm g (a+t+g+c) + entropyTerm c (a+t+g+c)) * Real.log 2 ≤ Real.log 4 := by
    have e1 : (entropyTerm a (a+t+g+c) + entropyTerm t (a+t+g+c)
        + entropyTerm g (a+t+g+c) + entropyTerm c (a+t+g+c)) * Real.log 2
        = entropyTerm a (a+t+g+c) * Real.log 2 + entropyTerm t (a+t+g+c) * Real.log 2
          + entropyTerm g (a+t+g+c) * Real.log 2 + entropyTerm c (a+t+g+c) * Real.log 2 := by
      ring
    rw [e1]
    nlinarith [b1, b2, b3, b4, hSL, hL]
  rw [hlog4] at hmul
  exact le_of_mul_le_mul_right hmul hl2

theorem shannonEntropy_le_two (dna : List Char) (h : 0 < nucleotideTotal dna) :
    shannonEntropy dna ≤ 2 := by
  unfold shannonEntropy
  unfold nucleotideTotal at h ⊢
  exact four_term_entropy_le _ _ _ _ h

theorem shannonEntropy_nonneg (dna : List Char) : 0 ≤ shannonEntropy dna := by
  unfold shannonEntropy nucleotideTotal
  have h1 := entropyTerm_nonneg (dna.count 'A')
    (dna.count 'A' + dna.count 'T' + dna.count 'G' + dna.count 'C') (by omega)
  have h2 := entropyTerm_nonneg (dna.count 'T')
    (dna.count 'A' + dna.count 'T' + dna.count 'G' + dna.count 'C') (by omega)
  have h3 := entropyTerm_nonneg (dna.count 'G')
    (dna.count 'A' + dna.count 'T' + dna.count 'G' + dna.count 'C') (by omega)
  have h4 := entropyTerm_nonneg (dna.count 'C')
    (dna.count 'A' + dna.count 'T' + dna.count 'G' + dna.count 'C') (by omega)
  linarith

theorem clamp01_nonneg (x : ℝ) : 0 ≤ max 0 (min 1 x) := le_max_left 0 _

theorem clamp01_le_one (x : ℝ) : max 0 (min 1 x) ≤ 1 :=
  max_le (by norm_num) (min_le_left 1 x)

theorem calculate_entropy_nonneg (g : Genome) : 0 ≤ calculate_entropy g := by
  unfold calculate_entropy
  split_ifs
  · exact le_refl 0
  · exact le_refl 0
  · linarith [shannonEntropy_nonneg g.dna_tetrad]

theorem calculate_entropy_le_one (g : Genome) : calculate_entropy g ≤ 1 := by
  unfold calculate_entropy
  split_ifs with h1 h2
  · norm_num
  · norm_num
  · have := shannonEntropy_le_two g.dna_tetrad (by omega)
    linarith

theorem calculate_uniqueness_nonneg (store : List Genome) (g : Genome) :
    0 ≤ calculate_uniqueness store g := by
  unfold calculate_uniqueness
  split_ifs
  · exact le_refl 0
  · norm_num
  · positivity

theorem calculate_uniqueness_le_one (store : List Genome) (g : Genome) :
    calculate_uniqueness store g ≤ 1 := by
  unfold calculate_uniqueness
  split_ifs with h1 h2
  · norm_num
  · norm_num
  · rw [div_le_one (by positivity)]
    have := Nat.cast_nonneg (α := ℝ) (duplicateCount store g)
    linarith

theorem uniqueness_of_empty_dna (store : List Genome) (g : Genome)
    (h : g.dna_tetrad = []) : calculate_uniqueness store g = 0 := by
  unfold calculate_uniqueness
  rw [if_pos h]

/-- A minimal unprocessed test record: empty string, full consciousness,
unrecognized chain tag, zero height.  All four metric values are then
rational literals (0.65, 0, 0, 0.35) and the raw score is 0.36. -/
def mkTest (i : Nat) : Genome :=
  { id := i
    dna_tetrad := []
    consciousness := 81
    blockchain := []
    block_height := 0
    rsm_minted := false
    rsm_tokens_total := 0
    rsm_tokens_market := 0
    rsm_tokens_founder := 0
    rsm_complexity_score := 0
    rsm_uniqueness_score := 0
    rsm_entropy_score := 0
    rsm_blockchain_score := 0
    rsm_calibration_k := 0 }

/-- An already-processed test record carrying a given persisted total. -/
def mkMinted (i : Nat) (total : ℝ) : Genome :=
  { mkTest i with rsm_minted := true, rsm_tokens_total := total }

theorem mkTest_id (i : Nat) : (mkTest i).id = i := rfl
theorem mkTest_minted (i : Nat) : (mkTest i).rsm_minted = false := rfl
theorem mkTest_dna (i : Nat) : (mkTest i).dna_tetrad = [] := rfl
theorem mkMinted_id (i : Nat) (T : ℝ) : (mkMinted i T).id = i := rfl
theorem mkMinted_minted (i : Nat) (T : ℝ) : (mkMinted i T).rsm_minted = true := rfl
theorem mkMinted_total (i : Nat) (T : ℝ) : (mkMinted i T).rsm_tokens_total = T := rfl

theorem mkTest_complexity (i : Nat) :
    calculate_consciousness_complexity (mkTest i) = 0.65 := by
  unfold calculate_consciousness_complexity mkTest
  norm_num [min_def, max_def]

theorem mkTest_entropy (i : Nat) : calculate_entropy (mkTest i) = 0 := by
  unfold calculate_entropy
  rw [if_pos (mkTest_dna i)]

theorem blockchainWeight_nil : blockchainWeight [] = 0.5 := by
  simp [blockchainWeight]

theorem mkTest_blockchain (i : Nat) :
    calculate_blockchain_metric (mkTest i) = 0.35 := by
  unfold calculate_blockchain_metric mkTest
  rw [show strToLower [] = [] from rfl, blockchainWeight_nil]
  norm_num [min_def, max_def]

theorem mkTest_raw (store : List Genome) (i : Nat) :
    raw_score store (mkTest i) = 0.36 := by
  unfold raw_score alpha beta gamma delta
  rw [mkTest_complexity, uniqueness_of_empty_dna store _ (mkTest_dna i),
    mkTest_entropy, mkTest_blockchain]
  norm_num

theorem mkTest_token_amount (store : List Genome) (i : Nat) :
    calculate_token_amount 1 store (mkTest i) = 0.36 := by
  unfold calculate_token_amount
  rw [mkTest_raw]
  norm_num

theorem mint_tokens_success (K : ℝ) (store : List Genome) (g : Genome)
    (hm : g.rsm_minted = false)
    (ht : ¬ calculate_token_amount K store g < MIN_MINT_THRESHOLD) :
    mint_tokens K store g
      = (some (mintResult K store g), updateStore store (mintResult K store g)) := by
  unfold mint_tokens
  rw [if_neg (by simp [hm]), if_neg ht]

theorem mkTest_threshold (store : List Genome) (i : Nat) :
    ¬ calculate_token_amount 1 store (mkTest i) < MIN_MINT_THRESHOLD := by
  rw [mkTest_token_amount]
  unfold MIN_MINT_THRESHOLD
  norm_num

/-- Two unprocessed records; exercising `mint_all_genomes` with
batch size 1 exhibits the OFFSET pagination slip. -/
def c3s : List Genome := [mkTest 1, mkTest 2]

theorem c3s_nodup : NodupIds c3s := by
  unfold NodupIds c3s
  simp [mkTest_id]

theorem c3s_supply : get_current_supply c3s = 0 := by
  unfold c3s
  rw [supply_cons, supply_cons, supply_nil, mkTest_minted, mkTest_minted]
  norm_num

theorem page_c3s : unminted_page c3s 1 0 = [mkTest 1] := by
  unfold unminted_page unminted c3s sortById
  simp [mkTest_minted, insertById, mkTest_id]

noncomputable def r31 : MintResult := mintResult 1 c3s (mkTest 1)

noncomputable def s31 : List Genome := updateStore c3s r31

theorem r31_gid : r31.genome_id = 1 := rfl

theorem mint_c3_1 : mint_tokens 1 c3s (mkTest 1) = (some r31, s31) :=
  mint_tokens_success 1 c3s (mkTest 1) (mkTest_minted 1) (mkTest_threshold c3s 1)

theorem r31_total : r31.total = 0.36 := by
  unfold r31
  rw [mintResult_total]
  unfold minted_total clampToCeiling
  rw [c3s_supply, mkTest_token_amount]
  rw [if_neg (by unfold MAX_SUPPLY; norm_num)]

theorem s31_eq : s31 = [applyMint (mkTest 1) r31, mkTest 2] := by
  unfold s31 updateStore c3s
  simp [mkTest_id, r31_gid]

theorem s31_supply : get_current_supply s31 = 0.36 := by
  unfold s31
  rw [updateStore_supply c3s r31 (mkTest 1) c3s_nodup (by simp [c3s]) rfl (mkTest_minted 1)]
  rw [c3s_supply, r31_total]
  norm_num

theorem processPage_c3 : processPage 1 c3s [mkTest 1] = (s31, [1], 1) := by
  simp [processPage, mint_c3_1, mkTest_id]

theorem page_s31 : unminted_page s31 1 1 = [] := by
  rw [s31_eq]
  unfold unminted_page unminted sortById
  simp [applyMint_minted, mkTest_minted, insertById]

theorem c3run : mint_all_genomes 1 1 c3s = (s31, [1], 1) := by
  unfold mint_all_genomes
  rw [mintLoop_step 1 1 c3s 0
    (by rw [page_c3s]; simp)
    (by
      rw [page_c3s, processPage_c3]
      dsimp only
      rw [s31_supply]
      unfold MAX_SUPPLY
      norm_num)]
  rw [page_c3s, processPage_c3]
  dsimp only
  rw [show (0 + 1 : Nat) = 1 from rfl]
  rw [mintLoop_empty 1 1 s31 1 (by rw [page_s31]; rfl)]
  simp

/-- A store whose processed sum already equals the ceiling, plus two
unprocessed records in the same page. -/
def c5s : List Genome := [mkMinted 0 MAX_SUPPLY, mkTest 1, mkTest 2]

theorem c5s_nodup : NodupIds c5s := by
  unfold NodupIds c5s
  simp [mkTest_id, mkMinted_id]

theorem c5s_supply : get_current_supply c5s = MAX_SUPPLY := by
  unfold c5s
  rw [supply_cons, supply_cons, supply_cons, supply_nil, mkMinted_minted,
    mkMinted_total, mkTest_minted, mkTest_minted]
  norm_num

theorem page_c5s : unminted_page c5s 100 0 = [mkTest 1, mkTest 2] := by
  unfold unminted_page unminted c5s sortById
  simp [mkTest_minted, mkMinted_minted, insertById, mkTest_id]

noncomputable def r51 : MintResult := mintResult 1 c5s (mkTest 1)

noncomputable def s51 : List Genome := updateStore c5s r51

theorem r51_gid : r51.genome_id = 1 := rfl

theorem mint_c5_1 : mint_tokens 1 c5s (mkTest 1) = (some r51, s51) :=
  mint_tokens_success 1 c5s (mkTest 1) (mkTest_minted 1) (mkTest_threshold c5s 1)

theorem r51_total : r51.total = 0 := by
  unfold r51
  rw [mintResult_total]
  unfold minted_total clampToCeiling
  rw [c5s_supply, mkTest_token_amount]
  rw [if_pos (by unfold MAX_SUPPLY; norm_num)]
  ring

theorem s51_nodup : NodupIds s51 := by
  unfold NodupIds s51
  rw [updateStore_ids]
  exact c5s_nodup

theorem mem_s51 : mkTest 2 ∈ s51 :=
  mem_updateStore_of_ne c5s r51 (by simp [c5s]) (by rw [r51_gid, mkTest_id]; omega)

theorem s51_supply : get_current_supply s51 = MAX_SUPPLY := by
  unfold s51
  rw [updateStore_supply c5s r51 (mkTest 1) c5s_nodup (by simp [c5s]) rfl (mkTest_minted 1)]
  rw [c5s_supply, r51_total]
  ring

noncomputable def r52 : MintResult := mintResult 1 s51 (mkTest 2)

noncomputable def s52 : List Genome := updateStore s51 r52

theorem mint_c5_2 : mint_tokens 1 s51 (mkTest 2) = (some r52, s52) :=
  mint_tokens_success 1 s51 (mkTest 2) (mkTest_minted 2) (mkTest_threshold s51 2)

theorem r52_total : r52.total = 0 := by
  unfold r52
  rw [mintResult_total]
  unfold minted_total clampToCeiling
  rw [s51_supply, mkTest_token_amount]
  rw [if_pos (by unfold MAX_SUPPLY; norm_num)]
  ring

theorem s52_supply : get_current_supply s52 = MAX_SUPPLY := by
  unfold s52
  rw [updateStore_supply s51 r52 (mkTest 2) s51_nodup mem_s51 rfl (mkTest_minted 2)]
  rw [s51_supply, r52_total]
  ring

theorem processPage_c5 : processPage 1 c5s [mkTest 1, mkTest 2] = (s52, [1, 2], 2) := by
  simp [processPage, mint_c5_1, mint_c5_2, mkTest_id]

theorem c5run : mint_all_genomes 1 100 c5s = (s52, [1, 2], 2) := by
  unfold mint_all_genomes
  rw [mintLoop_stop 1 100 c5s 0
    (by rw [page_c5s]; simp)
    (by
      rw [page_c5s, processPage_c5]
      dsimp only
      rw [s52_supply])]
  rw [page_c5s, processPage_c5]

/-- A fully processed store: re-running the driver writes nothing. -/
def c4s : List Genome := [mkMinted 0 MAX_SUPPLY]

theorem c4s_all_minted : ∀ g ∈ c4s, g.rsm_minted = true := by
  simp [c4s, mkMinted_minted]

theorem c4s_page_empty : (unminted_page c4s 100 0).isEmpty = true := by
  have hfil : unminted c4s = [] := by
    simp [unminted, c4s, mkMinted_minted]
  unfold unminted_page
  rw [hfil]
  rfl

/-- A store whose processed sum equals the ceiling plus one fresh record;
used for the threshold-before-clamp behaviour. -/
def c10s : List Genome := [mkMinted 0 MAX_SUPPLY, mkTest 1]

theorem c10s_nodup : NodupIds c10s := by
  unfold NodupIds c10s
  simp [mkMinted_id, mkTest_id]

theorem c10s_supply : get_current_supply c10s = MAX_SUPPLY := by
  unfold c10s
  rw [supply_cons, supply_cons, supply_nil, mkMinted_minted, mkMinted_total, mkTest_minted]
  norm_num

/-- A single record with an empty string and no earlier duplicate. -/
def c6s : List Genome := [mkTest 5]

theorem c6s_dup : duplicateCount c6s (mkTest 5) = 0 := by decide

/-- A record with a one-symbol string. -/
def mkDup (i : Nat) : Genome := { mkTest i with dna_tetrad := ['A'] }

theorem mkDup_dna (i : Nat) : (mkDup i).dna_tetrad = ['A'] := rfl

/-- Three records sharing the same nonempty string: the third has two
earlier duplicates. -/
def c6w : List Genome := [mkDup 1, mkDup 2, mkDup 3]

theorem c6w_dup : duplicateCount c6w (mkDup 3) = 2 := by decide

/-- Two records with empty strings: the later one has an earlier
duplicate yet still scores 0. -/
def c9s : List Genome := [mkTest 4, mkTest 7]

theorem c9s_dup : duplicateCount c9s (mkTest 7) = 1 := by decide

theorem est_eval : estimated_total_score [mkTest 1] [mkTest 1] = 0.36 := by
  unfold estimated_total_score get_genome_count
  simp [mkTest_raw]

/-- Significand selection for IEEE round-to-nearest: the nearest integer
to the scaled magnitude, with a half-way value resolved to the even
candidate. -/
def rndMantissa (y : ℚ) : ℤ :=
  if y - ⌊y⌋ < 1/2 then ⌊y⌋
  else if 1/2 < y - ⌊y⌋ then ⌊y⌋ + 1
  else if ⌊y⌋ % 2 = 0 then ⌊y⌋ else ⌊y⌋ + 1

/-- IEEE 754 double rounding (round to nearest, ties to even) of a
rational, for results in the normal, non-overflowing range: the
magnitude is scaled into the 53-bit binade `[2^52, 2^53)` selected by
`Int.log 2`, the significand is rounded by `rndMantissa`, and the sign is
reattached.  This is the rounding Python applies after every float
operation of the engine. -/
def rnd (x : ℚ) : ℚ :=
  if x = 0 then 0
  else (if 0 < x then 1 else -1)
    * (rndMantissa (|x| / 2 ^ (Int.log 2 |x| - 52)) : ℚ)
    * 2 ^ (Int.log 2 |x| - 52)

/-- The double value of the Python module constant `MARKET_RATIO = 6.0/7.0`:
the literal quotient is rounded once. -/
def MARKET_RATIO_fp : ℚ := rnd (6/7)

/-- The double value of `FOUNDER_RATIO = 1.0/7.0`. -/
def FOUNDER_RATIO_fp : ℚ := rnd (1/7)

/-- `market_tokens = total_tokens * MARKET_RATIO` in double arithmetic,
for a total `t` that is itself a double. -/
def market_fp (t : ℚ) : ℚ := rnd (t * MARKET_RATIO_fp)

/-- `founder_tokens = total_tokens * FOUNDER_RATIO` in double
arithmetic. -/
def founder_fp (t : ℚ) : ℚ := rnd (t * FOUNDER_RATIO_fp)

/-- `distribution_sum = market_tokens + founder_tokens` in double
arithmetic. -/
def distribution_sum_fp (t : ℚ) : ℚ := rnd (market_fp t + founder_fp t)

/-- The line-323 assertion condition
`abs(distribution_sum - total_tokens) < 1e-8` in double arithmetic: the
subtraction is a double operation and the literal `1e-8` is the double
nearest `10^-8`. -/
def assert_ok_fp (t : ℚ) : Prop :=
  |rnd (distribution_sum_fp t - t)| < rnd (1/100000000)

theorem int_log_eq {r : ℚ} {L : ℤ} (hr : 0 < r)
    (h1 : (2:ℚ)^L ≤ r) (h2 : r < (2:ℚ)^(L+1)) : Int.log 2 r = L := by
  have ha : L ≤ Int.log 2 r := by
    rw [← Int.zpow_le_iff_le_log (by norm_num) hr]
    exact_mod_cast h1
  have hb : Int.log 2 r < L + 1 := by
    rw [← Int.lt_zpow_iff_log_lt (by norm_num) hr]
    exact_mod_cast h2
  omega

theorem rndMantissa_lt (y : ℚ) (n0 : ℤ) (hfl : ⌊y⌋ = n0) (h : y - n0 < 1/2) :
    rndMantissa y = n0 := by
  unfold rndMantissa
  rw [hfl, if_pos h]

theorem rndMantissa_gt (y : ℚ) (n0 : ℤ) (hfl : ⌊y⌋ = n0)
    (h1 : ¬ y - n0 < 1/2) (h2 : 1/2 < y - n0) : rndMantissa y = n0 + 1 := by
  unfold rndMantissa
  rw [hfl, if_neg h1, if_pos h2]

theorem rnd_pos_eval {x : ℚ} {L : ℤ} (hx : 0 < x) (hlog : Int.log 2 x = L) :
    rnd x = (rndMantissa (x / 2^(L-52)) : ℚ) * 2^(L-52) := by
  unfold rnd
  rw [if_neg (ne_of_gt hx), abs_of_pos hx, hlog, if_pos hx, one_mul]

theorem rnd_neg_eval {x : ℚ} {L : ℤ} (hx : x < 0) (hlog : Int.log 2 (-x) = L) :
    rnd x = -((rndMantissa ((-x) / 2^(L-52)) : ℚ) * 2^(L-52)) := by
  unfold rnd
  rw [if_neg (ne_of_lt hx), abs_of_neg hx, hlog, if_neg (not_lt.mpr hx.le)]
  ring

theorem rnd_M : MARKET_RATIO_fp = 7720456504063707 / 9007199254740992 := by
  unfold MARKET_RATIO_fp
  have hlog : Int.log 2 (6/7 : ℚ) = -1 :=
    int_log_eq (by norm_num) (by norm_num) (by norm_num)
  rw [rnd_pos_eval (by norm_num) hlog]
  rw [show (6/7 : ℚ) / 2^(-1 - 52 : ℤ) = 54043195528445952/7 by norm_num]
  rw [rndMantissa_lt (54043195528445952/7) 7720456504063707
    (Int.floor_eq_iff.mpr (by norm_num)) (by norm_num)]
  norm_num

theorem rnd_F : FOUNDER_RATIO_fp = 2573485501354569 / 18014398509481984 := by
  unfold FOUNDER_RATIO_fp
  have hlog : Int.log 2 (1/7 : ℚ) = -3 :=
    int_log_eq (by norm_num) (by norm_num) (by norm_num)
  rw [rnd_pos_eval (by norm_num) hlog]
  rw [show (1/7 : ℚ) / 2^(-3 - 52 : ℤ) = 36028797018963968/7 by norm_num]
  rw [rndMantissa_lt (36028797018963968/7) 5146971002709138
    (Int.floor_eq_iff.mpr (by norm_num)) (by norm_num)]
  norm_num

theorem market_eval : market_fp (200001331/2) = 1438056655917641/16777216 := by
  unfold market_fp
  rw [rnd_M]
  rw [show (200001331/2 : ℚ) * (7720456504063707 / 9007199254740992)
      = 1544101576740348308794017/18014398509481984 by norm_num]
  have hlog : Int.log 2 (1544101576740348308794017/18014398509481984 : ℚ) = 26 :=
    int_log_eq (by norm_num) (by norm_num) (by norm_num)
  rw [rnd_pos_eval (by norm_num) hlog]
  rw [show (1544101576740348308794017/18014398509481984 : ℚ) / 2^(26 - 52 : ℤ)
      = 1544101576740348308794017/268435456 by norm_num]
  rw [rndMantissa_lt (1544101576740348308794017/268435456) 5752226623670564
    (Int.floor_eq_iff.mpr (by norm_num)) (by norm_num)]
  norm_num

theorem founder_eval : founder_fp (200001331/2) = 7669635498227419/536870912 := by
  unfold founder_fp
  rw [rnd_F]
  rw [show (200001331/2 : ℚ) * (2573485501354569 / 18014398509481984)
      = 514700525580116102931339/36028797018963968 by norm_num]
  have hlog : Int.log 2 (514700525580116102931339/36028797018963968 : ℚ) = 23 :=
    int_log_eq (by norm_num) (by norm_num) (by norm_num)
  rw [rnd_pos_eval (by norm_num) hlog]
  rw [show (514700525580116102931339/36028797018963968 : ℚ) / 2^(23 - 52 : ℤ)
      = 514700525580116102931339/67108864 by norm_num]
  rw [rndMantissa_lt (514700525580116102931339/67108864) 7669635498227419
    (Int.floor_eq_iff.mpr (by norm_num)) (by norm_num)]
  norm_num

theorem sum_eval : distribution_sum_fp (200001331/2) = 6710931060948991/67108864 := by
  unfold distribution_sum_fp
  rw [market_eval, founder_eval]
  rw [show (1438056655917641/16777216 : ℚ) + 7669635498227419/536870912
      = 53687448487591931/536870912 by norm_num]
  have hlog : Int.log 2 (53687448487591931/536870912 : ℚ) = 26 :=
    int_log_eq (by norm_num) (by norm_num) (by norm_num)
  rw [rnd_pos_eval (by norm_num) hlog]
  rw [show (53687448487591931/536870912 : ℚ) / 2^(26 - 52 : ℤ)
      = 53687448487591931/8 by norm_num]
  rw [rndMantissa_lt (53687448487591931/8) 6710931060948991
    (Int.floor_eq_iff.mpr (by norm_num)) (by norm_num)]
  norm_num

theorem diff_eval :
    rnd (distribution_sum_fp (200001331/2) - 200001331/2) = -(1/67108864) := by
  rw [sum_eval]
  rw [show (6710931060948991/67108864 : ℚ) - 200001331/2 = -(1/67108864) by norm_num]
  have hlog : Int.log 2 (-(-(1/67108864)) : ℚ) = -26 := by
    rw [neg_neg]
    exact int_log_eq (by norm_num) (by norm_num) (by norm_num)
  rw [rnd_neg_eval (by norm_num) hlog]
  rw [show (-(-(1/67108864)) : ℚ) / 2^(-26 - 52 : ℤ) = 4503599627370496 by norm_num]
  rw [rndMantissa_lt 4503599627370496 4503599627370496
    (Int.floor_eq_iff.mpr (by norm_num)) (by norm_num)]
  norm_num

theorem rnd_1e8 : rnd (1/100000000) = 3022314549036573/302231454903657293676544 := by
  have hlog : Int.log 2 (1/100000000 : ℚ) = -27 :=
    int_log_eq (by norm_num) (by norm_num) (by norm_num)
  rw [rnd_pos_eval (by norm_num) hlog]
  rw [show (1/100000000 : ℚ) / 2^(-27 - 52 : ℤ)
      = 2361183241434822606848/390625 by norm_num]
  rw [rndMantissa_gt (2361183241434822606848/390625) 6044629098073145
    (Int.floor_eq_iff.mpr (by norm_num)) (by norm_num) (by norm_num)]
  norm_num

theorem assert_ok_fp_fails : ¬ assert_ok_fp (200001331/2) := by
  unfold assert_ok_fp
  rw [diff_eval, rnd_1e8]
  rw [show |(-(1/67108864) : ℚ)| = 1/67108864 by rw [abs_neg]; norm_num]
  norm_num

/-- A store with processed sum 0.5; the ceiling clamp then persists the
total 100000666 - 0.5 = 100000665.5, a value exactly representable as a
double (2^-26 grid) on which the line-323 assertion fails. -/
def c1cs : List Genome := [mkMinted 0 0.5, mkTest 1]

theorem c1cs_supply : get_current_supply c1cs = 0.5 := by
  unfold c1cs
  rw [supply_cons, supply_cons, supply_nil, mkMinted_minted, mkMinted_total, mkTest_minted]
  norm_num

theorem mkTest_token_amount_gen (K : ℝ) (store : List Genome) (i : Nat) :
    calculate_token_amount K store (mkTest i) = K * 0.36 := by
  unfold calculate_token_amount
  rw [mkTest_raw]

theorem c1cs_total : minted_total 1000000000 c1cs (mkTest 1) = 100000665.5 := by
  unfold minted_total clampToCeiling
  rw [c1cs_supply, mkTest_token_amount_gen]
  rw [if_pos (by unfold MAX_SUPPLY; norm_num)]
  unfold MAX_SUPPLY
  norm_num

/-- Claim C1 counterexample: the distribution-check assertion can fail.
The total 100000665.5 reaches the split (the ceiling clamp persists it
when the processed sum is 0.5 and the computed total exceeds the
ceiling), it is exactly representable as a double, and on it the
line-323 condition `abs(market + founder - total) < 1e-8`, evaluated in
the double arithmetic the program runs, is false: the rounding error is
exactly `2^-26`, about `1.49e-8`. -/
theorem claim_distribution_counterexample :
    mint_tokens 1000000000 c1cs (mkTest 1)
      = (some (mintResult 1000000000 c1cs (mkTest 1)),
         updateStore c1cs (mintResult 1000000000 c1cs (mkTest 1)))
    ∧ (mintResult 1000000000 c1cs (mkTest 1)).total = 100000665.5
    ∧ ¬ assert_ok_fp 100000665.5 := by
  refine ⟨mint_tokens_success 1000000000 c1cs (mkTest 1) (mkTest_minted 1) ?_, ?_, ?_⟩
  · rw [mkTest_token_amount_gen]
    unfold MIN_MINT_THRESHOLD
    norm_num
  · rw [mintResult_total]
    exact c1cs_total
  · rw [show (100000665.5 : ℚ) = 200001331/2 by norm_num]
    exact assert_ok_fp_fails

/-- Claim C1 (amended): for every record the minting routine persists,
the stored market allocation equals `total * 6/7` and the stored founder
allocation equals `total * 1/7`, computed from the post-clamp total (not
re-derived), and `market + founder` reconstructs the total exactly in
exact (real) arithmetic.  The 1e-8 distribution check is not guaranteed
in the double arithmetic the program runs: for totals near the supply
ceiling the rounding error reaches `2^-26`, so the assertion can
fail. -/
theorem claim_distribution_ratio (K : ℝ) (store : List Genome) (g : Genome)
    (r : MintResult) (store2 : List Genome)
    (h : mint_tokens K store g = (some r, store2)) :
    (r.total = minted_total K store g
      ∧ r.market = r.total * (6/7) ∧ r.founder = r.total * (1/7)
      ∧ r.market + r.founder = r.total)
    ∧ ∀ e ∈ store2, e.id = g.id →
        e.rsm_tokens_total = r.total
        ∧ e.rsm_tokens_market = e.rsm_tokens_total * (6/7)
        ∧ e.rsm_tokens_founder = e.rsm_tokens_total * (1/7)
        ∧ e.rsm_tokens_market + e.rsm_tokens_founder = e.rsm_tokens_total := by
  unfold mint_tokens at h
  split_ifs at h with h1 h2
  · simp at h
  · simp at h
  · rw [Prod.mk.injEq] at h
    obtain ⟨hr, hs⟩ := h
    have hr' : r = mintResult K store g := (Option.some.inj hr).symm
    subst hr'
    subst hs
    have hmkt : (mintResult K store g).market = (mintResult K store g).total * (6/7) := by
      rw [mintResult_market, mintResult_total]
      unfold MARKET_RATIO
      ring
    have hfnd : (mintResult K store g).founder = (mintResult K store g).total * (1/7) := by
      rw [mintResult_founder, mintResult_total]
      unfold FOUNDER_RATIO
      ring
    have hsum : (mintResult K store g).market + (mintResult K store g).founder
        = (mintResult K store g).total := by
      rw [hmkt, hfnd]
      ring
    refine ⟨⟨mintResult_total K store g, hmkt, hfnd, hsum⟩, ?_⟩
    intro e he hid
    unfold updateStore at he
    obtain ⟨x, hx, hfx⟩ := List.mem_map.mp he
    by_cases hxid : x.id = (mintResult K store g).genome_id
    · rw [if_pos hxid] at hfx
      rw [← hfx]
      refine ⟨applyMint_total x _, ?_, ?_, ?_⟩
      · rw [applyMint_market, applyMint_total]
        exact hmkt
      · rw [applyMint_founder, applyMint_total]
        exact hfnd
      · rw [applyMint_market, applyMint_founder, applyMint_total]
        exact hsum
    · rw [if_neg hxid] at hfx
      exfalso
      apply hxid
      rw [mintResult_genome_id, ← hid, ← hfx]

theorem claim_distribution_ratio_witness :
    mint_tokens 1 [mkTest 1] (mkTest 1)
      = (some (mintResult 1 [mkTest 1] (mkTest 1)),
         updateStore [mkTest 1] (mintResult 1 [mkTest 1] (mkTest 1)))
    ∧ (mintResult 1 [mkTest 1] (mkTest 1)).market
        = (mintResult 1 [mkTest 1] (mkTest 1)).total * (6/7)
    ∧ (mintResult 1 [mkTest 1] (mkTest 1)).founder
        = (mintResult 1 [mkTest 1] (mkTest 1)).total * (1/7)
    ∧ (mintResult 1 [mkTest 1] (mkTest 1)).market
        + (mintResult 1 [mkTest 1] (mkTest 1)).founder
        = (mintResult 1 [mkTest 1] (mkTest 1)).total := by
  have hmint := mint_tokens_success 1 [mkTest 1] (mkTest 1) (mkTest_minted 1)
    (mkTest_threshold [mkTest 1] 1)
  have happ := claim_distribution_ratio 1 [mkTest 1] (mkTest 1) _ _ hmint
  exact ⟨hmint, happ.1.2.1, happ.1.2.2.1, happ.1.2.2.2⟩

/-- Claim C2: the processed sum never exceeds the ceiling 100000666.0;
when the current sum plus a computed total would exceed it, the persisted
total is exactly the remaining headroom; and with ceiling 100, current
sum 99.9995 and computed total 0.01 the clamp yields exactly 0.0005,
split as `0.0005 * 6/7` and `0.0005 * 1/7`. -/
theorem claim_supply_ceiling :
    MAX_SUPPLY = 100000666
    ∧ (∀ (K : ℝ) (b : Nat) (store : List Genome), NodupIds store →
        get_current_supply store ≤ MAX_SUPPLY →
        get_current_supply (mint_all_genomes K b store).1 ≤ MAX_SUPPLY)
    ∧ (∀ (K : ℝ) (store : List Genome) (g : Genome),
        MAX_SUPPLY < get_current_supply store + calculate_token_amount K store g →
        minted_total K store g = MAX_SUPPLY - get_current_supply store)
    ∧ (∀ (K : ℝ) (store : List Genome) (g : Genome) (r : MintResult) (s2 : List Genome),
        mint_tokens K store g = (some r, s2) → r.total = minted_total K store g)
    ∧ clampToCeiling 100 99.9995 0.01 = 0.0005
    ∧ splitAllocations (clampToCeiling 100 99.9995 0.01) = (0.0005 * (6/7), 0.0005 * (1/7)) := by
  refine ⟨rfl, ?_, ?_, ?_, ?_, ?_⟩
  · intro K b store hnd hs
    unfold mint_all_genomes
    exact mintLoop_supply K b store.length store 0 (by omega) hnd hs
  · intro K store g h
    unfold minted_total clampToCeiling
    rw [if_pos h]
  · intro K store g r s2 h
    unfold mint_tokens at h
    split_ifs at h with h1 h2
    · simp at h
    · simp at h
    · rw [Prod.mk.injEq] at h
      rw [← Option.some.inj h.1]
      exact mintResult_total K store g
  · unfold clampToCeiling
    rw [if_pos (by norm_num)]
    norm_num
  · unfold splitAllocations clampToCeiling MARKET_RATIO FOUNDER_RATIO
    rw [if_pos (by norm_num)]
    norm_num

theorem claim_supply_ceiling_witness :
    NodupIds c5s ∧ get_current_supply c5s ≤ MAX_SUPPLY
    ∧ get_current_supply (mint_all_genomes 1 7 c5s).1 ≤ MAX_SUPPLY
    ∧ MAX_SUPPLY < get_current_supply c5s + calculate_token_amount 1 c5s (mkTest 9)
    ∧ minted_total 1 c5s (mkTest 9) = MAX_SUPPLY - get_current_supply c5s
    ∧ r51.total = minted_total 1 c5s (mkTest 1) := by
  have h1 : get_current_supply c5s ≤ MAX_SUPPLY := by rw [c5s_supply]
  have h2 : MAX_SUPPLY < get_current_supply c5s + calculate_token_amount 1 c5s (mkTest 9) := by
    rw [c5s_supply, mkTest_token_amount]
    linarith [show (0:ℝ) < 0.36 by norm_num]
  exact ⟨c5s_nodup, h1, claim_supply_ceiling.2.1 1 7 c5s c5s_nodup h1, h2,
    claim_supply_ceiling.2.2.1 1 c5s (mkTest 9) h2,
    claim_supply_ceiling.2.2.2.1 1 c5s (mkTest 1) r51 s51 mint_c5_1⟩

/-- Claim C3 (code bug exhibit): with two unprocessed records (ids 1, 2)
and batch size 1, the driver hands only record 1 to `mint_tokens` and
terminates with record 2 still unprocessed, although the supply stayed
below the ceiling. The OFFSET advances over the shrinking unprocessed
set, so the second page skips record 2. -/
theorem claim_batch_offset_bug :
    c3s.map (fun e => (e.id, e.rsm_minted)) = [(1, false), (2, false)]
    ∧ (mint_all_genomes 1 1 c3s).2.1 = [1]
    ∧ (2 : Nat) ∉ (mint_all_genomes 1 1 c3s).2.1
    ∧ (mint_all_genomes 1 1 c3s).1.map (fun e => (e.id, e.rsm_minted)) = [(1, true), (2, false)]
    ∧ get_current_supply (mint_all_genomes 1 1 c3s).1 < MAX_SUPPLY := by
  refine ⟨by simp [c3s, mkTest_id, mkTest_minted], by rw [c3run], by rw [c3run]; simp, ?_, ?_⟩
  · rw [c3run]
    dsimp only
    rw [s31_eq]
    simp [applyMint_id, applyMint_minted, mkTest_id, mkTest_minted]
  · rw [c3run]
    dsimp only
    rw [s31_supply]
    unfold MAX_SUPPLY
    norm_num

/-- Claim C4: a record with `processed = true` is never minted again (the
guard returns `(none, store)` with no computation or write), and a run of
the batch driver over a fully processed store performs zero writes and
leaves the store unchanged. -/
theorem claim_idempotency :
    (∀ (K : ℝ) (store : List Genome) (g : Genome), g.rsm_minted = true →
      mint_tokens K store g = (none, store))
    ∧ (∀ (K : ℝ) (b : Nat) (store : List Genome), (∀ g ∈ store, g.rsm_minted = true) →
      mint_all_genomes K b store = (store, [], 0)) := by
  constructor
  · intro K store g h
    unfold mint_tokens
    rw [if_pos h]
  · intro K b store h
    have hfil : unminted store = [] := by
      unfold unminted
      rw [List.filter_eq_nil_iff]
      intro a ha
      simp [h a ha]
    have hpage : unminted_page store b 0 = [] := by
      unfold unminted_page
      rw [hfil, show sortById ([] : List Genome) = [] from rfl]
      simp
    unfold mint_all_genomes
    exact mintLoop_empty K b store 0 (by rw [hpage]; rfl)

theorem claim_idempotency_witness :
    (mkMinted 0 MAX_SUPPLY).rsm_minted = true
    ∧ mint_tokens 1 c4s (mkMinted 0 MAX_SUPPLY) = (none, c4s)
    ∧ (∀ g ∈ c4s, g.rsm_minted = true)
    ∧ mint_all_genomes 1 100 c4s = (c4s, [], 0) :=
  ⟨mkMinted_minted 0 _, claim_idempotency.1 1 c4s _ (mkMinted_minted 0 _),
   c4s_all_minted, claim_idempotency.2 1 100 c4s c4s_all_minted⟩

/-- Claim C5 counterexample: on a store whose processed sum already
equals the ceiling, the driver still hands both records of the current
page (ids 1 and 2) to the minting routine — it does not stop processing
records of the current page once the sum has reached the ceiling. -/
theorem claim_early_stop_counterexample :
    MAX_SUPPLY ≤ get_current_supply c5s
    ∧ (mint_all_genomes 1 100 c5s).2.1 = [1, 2]
    ∧ c5s.map (fun e => (e.id, e.rsm_minted)) = [(0, true), (1, false), (2, false)] :=
  ⟨by rw [c5s_supply], by rw [c5run],
   by simp [c5s, mkTest_id, mkTest_minted, mkMinted_id, mkMinted_minted]⟩

/-- Claim C5 (amended): the driver terminates when a fetched page is
empty or when the re-read processed sum has reached the ceiling; the
ceiling stop is checked only between pages, so every record of the
current page is handed to the minting routine before the stop. -/
theorem claim_early_stop_amended : ∀ (K : ℝ) (b : Nat) (store : List Genome) (o : Nat),
    ((unminted_page store b o).isEmpty = true → mintLoop K b store o = (store, [], 0))
    ∧ (processPage K store (unminted_page store b o)).2.1
        = (unminted_page store b o).map (·.id)
    ∧ (¬ (unminted_page store b o).isEmpty = true →
        MAX_SUPPLY ≤ get_current_supply (processPage K store (unminted_page store b o)).1 →
        mintLoop K b store o = processPage K store (unminted_page store b o)) := by
  intro K b store o
  exact ⟨mintLoop_empty K b store o, processPage_trace K _ store, mintLoop_stop K b store o⟩

theorem claim_early_stop_witness :
    (unminted_page c4s 100 0).isEmpty = true
    ∧ mintLoop 1 100 c4s 0 = (c4s, [], 0)
    ∧ ¬ (unminted_page c5s 100 0).isEmpty = true
    ∧ MAX_SUPPLY ≤ get_current_supply (processPage 1 c5s (unminted_page c5s 100 0)).1
    ∧ mintLoop 1 100 c5s 0 = processPage 1 c5s (unminted_page c5s 100 0) := by
  have hne : ¬ (unminted_page c5s 100 0).isEmpty = true := by
    rw [page_c5s]
    simp
  have hsup : MAX_SUPPLY ≤ get_current_supply (processPage 1 c5s (unminted_page c5s 100 0)).1 := by
    rw [page_c5s, processPage_c5]
    dsimp only
    rw [s52_supply]
  exact ⟨c4s_page_empty, (claim_early_stop_amended 1 100 c4s 0).1 c4s_page_empty,
    hne, hsup, (claim_early_stop_amended 1 100 c5s 0).2.2 hne hsup⟩

/-- Claim C6 counterexample: a record with an empty string and no
earlier duplicate scores 0, not 1.0 as the claim states for every
record without an earlier duplicate. -/
theorem claim_uniqueness_counterexample :
    duplicateCount c6s (mkTest 5) = 0
    ∧ calculate_uniqueness c6s (mkTest 5) = 0
    ∧ ¬ calculate_uniqueness c6s (mkTest 5) = 1 := by
  refine ⟨c6s_dup, uniqueness_of_empty_dna c6s _ (mkTest_dna 5), ?_⟩
  rw [uniqueness_of_empty_dna c6s _ (mkTest_dna 5)]
  norm_num

/-- Claim C6 (amended): for every record with a nonempty string, the
uniqueness metric returns 1.0 when no earlier record holds the same
string and `1/(1+duplicate_count)` otherwise; in particular two earlier
identical entries yield 1/3. -/
theorem claim_uniqueness_amended : ∀ (store : List Genome) (g : Genome), g.dna_tetrad ≠ [] →
    (duplicateCount store g = 0 → calculate_uniqueness store g = 1)
    ∧ (0 < duplicateCount store g →
        calculate_uniqueness store g = 1 / (1 + (duplicateCount store g : ℝ)))
    ∧ (duplicateCount store g = 2 → calculate_uniqueness store g = 1/3) := by
  intro store g h
  refine ⟨?_, ?_, ?_⟩
  · intro hd
    unfold calculate_uniqueness
    rw [if_neg h, if_pos hd]
  · intro hd
    unfold calculate_uniqueness
    rw [if_neg h, if_neg (by omega)]
  · intro hd
    unfold calculate_uniqueness
    rw [if_neg h, if_neg (by omega), hd]
    norm_num

theorem claim_uniqueness_amended_witness :
    (mkDup 3).dna_tetrad ≠ []
    ∧ duplicateCount c6w (mkDup 3) = 2
    ∧ calculate_uniqueness c6w (mkDup 3) = 1/3 :=
  ⟨by rw [mkDup_dna]; simp, c6w_dup,
   (claim_uniqueness_amended c6w (mkDup 3) (by rw [mkDup_dna]; simp)).2.2 c6w_dup⟩

/-- Claim C7: the calibrator sets `K` to the target ceiling divided by
the estimated grand total (mean pre-K sample score times total record
count), and `K = 1.0` when the sample is empty or the estimate is not
positive; in particular a sample on which all four metrics vanish yields
`K = 1.0`. -/
theorem claim_calibration : ∀ (store sample : List Genome) (target : ℝ),
    (sample ≠ [] → 0 < estimated_total_score store sample →
      calibrate_K store sample target = target / estimated_total_score store sample)
    ∧ (sample = [] → calibrate_K store sample target = 1)
    ∧ (estimated_total_score store sample ≤ 0 → calibrate_K store sample target = 1)
    ∧ ((∀ g ∈ sample, calculate_consciousness_complexity g = 0
          ∧ calculate_uniqueness store g = 0 ∧ calculate_entropy g = 0
          ∧ calculate_blockchain_metric g = 0) →
        calibrate_K store sample target = 1) := by
  intro store sample target
  have hzero : (∀ g ∈ sample, calculate_consciousness_complexity g = 0
      ∧ calculate_uniqueness store g = 0 ∧ calculate_entropy g = 0
      ∧ calculate_blockchain_metric g = 0) →
      (sample.map (raw_score store)).sum = 0 := by
    intro h
    apply List.sum_eq_zero
    intro x hx
    obtain ⟨g, hg, hgx⟩ := List.mem_map.mp hx
    obtain ⟨hc, hu, he, hb⟩ := h g hg
    rw [← hgx]
    unfold raw_score
    rw [hc, hu, he, hb]
    ring
  refine ⟨?_, ?_, ?_, ?_⟩
  · intro hne hpos
    unfold calibrate_K
    rw [if_neg (by simpa using hne), if_pos hpos]
  · intro h
    subst h
    rfl
  · intro h
    unfold calibrate_K
    by_cases hs : sample.isEmpty
    · rw [if_pos hs]
    · rw [if_neg hs, if_neg (not_lt.mpr h)]
  · intro h
    unfold calibrate_K
    by_cases hs : sample.isEmpty
    · rw [if_pos hs]
    · rw [if_neg hs, if_neg (by
        rw [show estimated_total_score store sample = 0 by
          unfold estimated_total_score
          rw [hzero h]
          simp]
        norm_num)]

theorem claim_calibration_witness :
    ([mkTest 1] : List Genome) ≠ []
    ∧ 0 < estimated_total_score [mkTest 1] [mkTest 1]
    ∧ calibrate_K [mkTest 1] [mkTest 1] 100 = 100 / estimated_total_score [mkTest 1] [mkTest 1]
    ∧ calibrate_K [mkTest 1] [] 100 = 1
    ∧ (∀ g ∈ ([] : List Genome), calculate_consciousness_complexity g = 0
        ∧ calculate_uniqueness [] g = 0 ∧ calculate_entropy g = 0
        ∧ calculate_blockchain_metric g = 0)
    ∧ calibrate_K [] [] 100 = 1 := by
  have hpos : 0 < estimated_total_score [mkTest 1] [mkTest 1] := by
    rw [est_eval]
    norm_num
  exact ⟨by simp, hpos,
    (claim_calibration [mkTest 1] [mkTest 1] 100).1 (by simp) hpos,
    (claim_calibration [mkTest 1] [] 100).2.1 rfl,
    by simp,
    (claim_calibration [] [] 100).2.2.2 (by simp)⟩

/-- Claim C8: all four metric functions return values in `[0,1]`; for
the entropy metric this holds without clamping because the accumulated
Shannon entropy is at most 2 bits before the division by 2. -/
theorem claim_metric_ranges :
    (∀ (store : List Genome) (g : Genome),
      (0 ≤ calculate_consciousness_complexity g ∧ calculate_consciousness_complexity g ≤ 1)
      ∧ (0 ≤ calculate_uniqueness store g ∧ calculate_uniqueness store g ≤ 1)
      ∧ (0 ≤ calculate_entropy g ∧ calculate_entropy g ≤ 1)
      ∧ (0 ≤ calculate_blockchain_metric g ∧ calculate_blockchain_metric g ≤ 1))
    ∧ (∀ dna : List Char, 0 < nucleotideTotal dna → shannonEntropy dna ≤ 2) := by
  constructor
  · intro store g
    refine ⟨⟨?_, ?_⟩,
      ⟨calculate_uniqueness_nonneg store g, calculate_uniqueness_le_one store g⟩,
      ⟨calculate_entropy_nonneg g, calculate_entropy_le_one g⟩, ⟨?_, ?_⟩⟩
    · unfold calculate_consciousness_complexity
      exact clamp01_nonneg _
    · unfold calculate_consciousness_complexity
      exact clamp01_le_one _
    · unfold calculate_blockchain_metric
      exact clamp01_nonneg _
    · unfold calculate_blockchain_metric
      exact clamp01_le_one _
  · exact shannonEntropy_le_two

theorem claim_metric_ranges_witness :
    0 < nucleotideTotal ['A'] ∧ shannonEntropy ['A'] ≤ 2 :=
  ⟨by decide, claim_metric_ranges.2 ['A'] (by decide)⟩

/-- Claim C9: a record whose string is empty scores 0 on the uniqueness
metric regardless of the store contents (the check precedes the
duplicate query), so an empty-string first occurrence never scores
1.0. -/
theorem claim_uniqueness_empty : ∀ (store : List Genome) (g : Genome),
    g.dna_tetrad = [] →
    calculate_uniqueness store g = 0 ∧ calculate_uniqueness store g ≠ 1 := by
  intro store g h
  refine ⟨uniqueness_of_empty_dna store g h, ?_⟩
  rw [uniqueness_of_empty_dna store g h]
  norm_num

theorem claim_uniqueness_empty_witness :
    (mkTest 7).dna_tetrad = []
    ∧ duplicateCount c9s (mkTest 7) = 1
    ∧ calculate_uniqueness c9s (mkTest 7) = 0
    ∧ calculate_uniqueness c9s (mkTest 7) ≠ 1 :=
  ⟨mkTest_dna 7, c9s_dup,
   (claim_uniqueness_empty c9s (mkTest 7) (mkTest_dna 7)).1,
   (claim_uniqueness_empty c9s (mkTest 7) (mkTest_dna 7)).2⟩

/-- Claim C10: the threshold check precedes the ceiling clamp, so a
record whose raw total passes the threshold while the processed sum
already equals the ceiling is persisted as processed with total 0 and
both allocations 0, and the processed-record count still increases. -/
theorem claim_zero_total_persist : ∀ (K : ℝ) (store : List Genome) (g : Genome),
    NodupIds store → g ∈ store → g.rsm_minted = false →
    MIN_MINT_THRESHOLD ≤ calculate_token_amount K store g →
    get_current_supply store = MAX_SUPPLY →
    mint_tokens K store g
      = (some (mintResult K store g), updateStore store (mintResult K store g))
    ∧ (mintResult K store g).total = 0
    ∧ (mintResult K store g).market = 0
    ∧ (mintResult K store g).founder = 0
    ∧ processedCount (mint_tokens K store g).2 = processedCount store + 1
    ∧ (∀ e ∈ (mint_tokens K store g).2, e.id = g.id →
        e.rsm_minted = true ∧ e.rsm_tokens_total = 0) := by
  intro K store g hnd hg hm ht hsup
  have hthr : (0:ℝ) < MIN_MINT_THRESHOLD := by
    unfold MIN_MINT_THRESHOLD
    norm_num
  have hmint := mint_tokens_success K store g hm (not_lt.mpr ht)
  have hmt : minted_total K store g = 0 := by
    unfold minted_total clampToCeiling
    rw [hsup, if_pos (by linarith)]
    exact sub_self _
  have htotal : (mintResult K store g).total = 0 := by
    rw [mintResult_total]
    exact hmt
  have hmarket : (mintResult K store g).market = 0 := by
    rw [mintResult_market, hmt]
    ring
  have hfounder : (mintResult K store g).founder = 0 := by
    rw [mintResult_founder, hmt]
    ring
  refine ⟨hmint, htotal, hmarket, hfounder, ?_, ?_⟩
  · rw [hmint]
    exact updateStore_processedCount store _ g hnd hg (mintResult_genome_id K store g).symm hm
  · rw [hmint]
    intro e he hid
    unfold updateStore at he
    obtain ⟨x, hx, hfx⟩ := List.mem_map.mp he
    by_cases hxid : x.id = (mintResult K store g).genome_id
    · rw [if_pos hxid] at hfx
      rw [← hfx]
      exact ⟨applyMint_minted x _, by rw [applyMint_total]; exact htotal⟩
    · rw [if_neg hxid] at hfx
      exfalso
      apply hxid
      rw [mintResult_genome_id, ← hid, ← hfx]

theorem claim_zero_total_persist_witness :
    NodupIds c10s ∧ mkTest 1 ∈ c10s ∧ (mkTest 1).rsm_minted = false
    ∧ MIN_MINT_THRESHOLD ≤ calculate_token_amount 1 c10s (mkTest 1)
    ∧ get_current_supply c10s = MAX_SUPPLY
    ∧ (mintResult 1 c10s (mkTest 1)).total = 0
    ∧ (mintResult 1 c10s (mkTest 1)).market = 0
    ∧ processedCount (mint_tokens 1 c10s (mkTest 1)).2 = processedCount c10s + 1 := by
  have hth : MIN_MINT_THRESHOLD ≤ calculate_token_amount 1 c10s (mkTest 1) := by
    rw [mkTest_token_amount]
    unfold MIN_MINT_THRESHOLD
    norm_num
  have hmem : mkTest 1 ∈ c10s := by simp [c10s]
  have happ := claim_zero_total_persist 1 c10s (mkTest 1) c10s_nodup hmem
    (mkTest_minted 1) hth c10s_supply
  exact ⟨c10s_nodup, hmem, mkTest_minted 1, hth, c10s_supply,
    happ.2.1, happ.2.2.1, happ.2.2.2.2.1⟩

end RSM
